import Mathlib

/-!
Shallow embedding of `app/app.py` from the foodpicker repository.

The program is a single linear pipeline: pick a cuisine, compute the next
Monday, fetch the set of previously-visited place ids from a spreadsheet log,
query a places API, filter and pick a restaurant, append a history row and
create a calendar event.

Modelling conventions:
* A Google Places result dict becomes the `Place` structure; a field that may
  be absent from the JSON becomes an `Option`.
* Python floats (ratings) are modelled as rationals `ℚ`; the thresholds and
  comparisons in the code only involve exact decimal constants.
* Dates are modelled as integers counting days from a fixed Monday epoch
  (day `0` is a Monday), so `weekday d = d % 7` matches Python's
  `date.weekday()` convention (Monday = 0).  Python's `%` on integers is
  `Int.emod` (non-negative result for a positive modulus).
* `random.choice xs` is modelled by an arbitrary seed `k : ℕ` selecting index
  `k % xs.length`; a uniformly distributed seed over `[0, length)` induces the
  uniform distribution over list positions.
* Ambient effects (the wall clock used for the timestamp, `date.isoformat`)
  are passed in as string parameters.
* The Streamlit button handler's `try/except` is modelled by `pipelineTry`
  (the body, with every external call's result supplied by an `Env` and
  exceptions as `Except.error`) and `run_pipeline` (the handler mapping the
  body's result to the rendered outcome).  `st.stop()` after the warning is
  modelled per its interface as a clean early exit of the script.
-/

namespace FoodPicker

/-- Threshold `MIN_RATING = 4.2` from the source. -/
def MIN_RATING : ℚ := 42 / 10

/-- Threshold `MIN_REVIEWS = 200` from the source. -/
def MIN_REVIEWS : ℕ := 200

/-- The fixed timezone key `America/Los_Angeles`. -/
def TIMEZONE_KEY : String := "America/Los_Angeles"

/-- The `displayName` sub-object of a places API result: `{text, ...}`. -/
structure DisplayName where
  text : Option String
deriving DecidableEq, Repr

/-- A places API result restricted to the requested field mask. -/
structure Place where
  id : Option String
  displayName : Option DisplayName
  rating : Option ℚ
  userRatingCount : Option ℕ
  priceLevel : Option String
  formattedAddress : Option String
  googleMapsUri : Option String
deriving DecidableEq, Repr

/-- `get_place_name`: `place.get("displayName", {}).get("text", "Unknown Restaurant")`. -/
def get_place_name (place : Place) : String :=
  match place.displayName with
  | none => "Unknown Restaurant"
  | some dn => dn.text.getD "Unknown Restaurant"

/-- The per-place test of the loop body of `choose_place`: a place is appended
to `eligible` iff its id is truthy (`place.get("id")` neither `None` nor `""`),
not in `history_ids`, and rating/review count (defaulting to `0`) meet the
thresholds. -/
def eligibleFilter (history_ids : Finset String) (place : Place) : Bool :=
  let place_id := place.id.getD ""
  let rating := place.rating.getD 0
  let reviews := place.userRatingCount.getD 0
  if place_id = "" ∨ place_id ∈ history_ids then false
  else if rating < MIN_RATING ∨ reviews < MIN_REVIEWS then false
  else true

/-- The `eligible` list accumulated by the loop in `choose_place`. -/
def eligiblePlaces (places : List Place) (history_ids : Finset String) : List Place :=
  places.filter (eligibleFilter history_ids)

/-- `choose_place`: filter, then `return None` on an empty survivor list, else
`random.choice(eligible)` with the randomness supplied as a seed `k`. -/
def choose_place (places : List Place) (history_ids : Finset String) (k : ℕ) :
    Option Place :=
  let eligible := eligiblePlaces places history_ids
  if eligible.isEmpty then none
  else eligible[k % eligible.length]?

/-- Weekday of a day number, with day `0` a Monday (Python `date.weekday()`:
Monday = 0). -/
def weekday (d : ℤ) : ℤ := d % 7

/-- `get_next_monday_date`: `days_ahead = (0 - today.weekday()) % 7`, bumped to
`7` when zero, added to today. -/
def get_next_monday_date (today : ℤ) : ℤ :=
  let days_ahead := (0 - weekday today) % 7
  let days_ahead2 := if days_ahead = 0 then 7 else days_ahead
  today + days_ahead2

/-- Exceptions observable by the button handler: `requests.HTTPError` (with
its message) or any other `Exception`. -/
inductive Exc where
  | http (msg : String)
  | other (msg : String)
deriving DecidableEq, Repr

/-- Width of the widest data row handed to `pd.DataFrame`. -/
def maxRowWidth (dataRows : List (List String)) : ℕ :=
  (dataRows.map List.length).foldr max 0

/-- `fetch_history_place_ids` after the sheet read yields `rows` (lists of
cell strings; the sheets API trims trailing empty cells, so a data row may be
shorter than the header).  An empty read returns the empty set.  Otherwise
`pd.DataFrame(rows[1:], columns=rows[0])` pads ragged data rows only up to the
widest data row, so it raises an `AssertionError` (caught downstream by the
generic `except Exception` clause, hence `Exc.other`) whenever data rows exist
and their maximum width differs from the header width.  A header without the
`"Google Place ID"` column gives the empty set.  With that label duplicated,
`df["Google Place ID"]` is a `DataFrame` and `set(...)` iterates its column
labels, yielding the singleton of the label itself.  With the label occurring
once, the result is the set of that column's present values over the data
rows; the padded cells of shorter rows are the `NaN`s that `dropna` removes. -/
def fetch_history_place_ids : List (List String) → Except Exc (Finset String)
  | [] => Except.ok ∅
  | header :: dataRows =>
    if dataRows ≠ [] ∧ maxRowWidth dataRows ≠ header.length then
      Except.error (Exc.other
        (toString header.length ++ " columns passed, passed data had "
          ++ toString (maxRowWidth dataRows) ++ " columns"))
    else if "Google Place ID" ∉ header then Except.ok ∅
    else if 2 ≤ header.count "Google Place ID" then
      Except.ok {"Google Place ID"}
    else
      Except.ok
        ((dataRows.filterMap
          (fun r => r[header.indexOf "Google Place ID"]?)).toFinset)

/-- Python `str(place.get("rating", ""))`. -/
def optRatStr (r : Option ℚ) : String :=
  match r with
  | none => ""
  | some q => toString q

/-- Python `str(place.get("userRatingCount", ""))`. -/
def optNatStr (n : Option ℕ) : String :=
  match n with
  | none => ""
  | some m => toString m

/-- `format_history_row`; the wall-clock timestamp and the event date's
`isoformat()` rendering are passed in as strings. -/
def format_history_row (timestamp : String) (place : Place) (cuisine : String)
    (event_date_iso : String) : List String :=
  [timestamp,
   event_date_iso,
   cuisine,
   get_place_name place,
   place.id.getD "",
   optRatStr place.rating,
   optNatStr place.userRatingCount,
   place.priceLevel.getD "",
   place.formattedAddress.getD "",
   place.googleMapsUri.getD ""]

/-- A local wall-time endpoint of the calendar event: a day number, hour,
minute and timezone key (`datetime.combine(event_date, time(h, 0), tz)`). -/
structure EventTime where
  day : ℤ
  hour : ℕ
  minute : ℕ
  timeZone : String
deriving DecidableEq, Repr

/-- The event body built by `create_calendar_event`. -/
structure CalendarEvent where
  summary : String
  location : String
  description : String
  startTime : EventTime
  endTime : EventTime
deriving DecidableEq, Repr

/-- Python `place.get("rating", "N/A")` rendered inside the f-string. -/
def ratingNA (r : Option ℚ) : String :=
  match r with
  | none => "N/A"
  | some q => toString q

/-- Python `place.get("userRatingCount", "N/A")` rendered inside the f-string. -/
def reviewsNA (n : Option ℕ) : String :=
  match n with
  | none => "N/A"
  | some m => toString m

/-- `create_calendar_event`: the event dict inserted into the calendar. -/
def create_calendar_event (place : Place) (event_date : ℤ) : CalendarEvent :=
  { summary := "Dinner @ " ++ get_place_name place
    location := place.formattedAddress.getD ""
    description :=
      get_place_name place ++ " | Rating: " ++ ratingNA place.rating
        ++ " | Reviews: " ++ reviewsNA place.userRatingCount
        ++ " | Link: " ++ place.googleMapsUri.getD ""
    startTime := { day := event_date, hour := 18, minute := 0, timeZone := TIMEZONE_KEY }
    endTime := { day := event_date, hour := 20, minute := 0, timeZone := TIMEZONE_KEY } }

/-- Result of the `try` body when it does not raise: either the survivor set
was empty (warning path) or a place was selected and recorded. -/
inductive TryResult where
  | noEligible
  | selected (place : Place)
deriving DecidableEq, Repr

/-- What the page renders after one button press. -/
inductive Outcome where
  | warning
  | success (placeName : String)
  | apiError (msg : String)
  | genericError (msg : String)
deriving DecidableEq, Repr

/-- Results of the external calls made during one run, including whether each
raised; `choiceIndex` is the randomness seed of `random.choice`. -/
structure Env where
  fetchHistoryResult : Except Exc (List (List String))
  searchResult : Except Exc (List Place)
  appendResult : Except Exc Unit
  calendarResult : Except Exc Unit
  choiceIndex : ℕ

/-- The `try` body of the button handler: read the history sheet, process it
with `fetch_history_place_ids` (whose `pd.DataFrame` step may itself raise),
search, choose; on a `None` choice warn and stop (modelled as a clean early
exit), else append the history row and create the event.  Any raised
exception propagates. -/
def pipelineTry (env : Env) : Except Exc TryResult :=
  match env.fetchHistoryResult with
  | Except.error e => Except.error e
  | Except.ok rows =>
    match fetch_history_place_ids rows with
    | Except.error e => Except.error e
    | Except.ok history_ids =>
      match env.searchResult with
      | Except.error e => Except.error e
      | Except.ok places =>
        match choose_place places history_ids env.choiceIndex with
        | none => Except.ok TryResult.noEligible
        | some place =>
          match env.appendResult with
          | Except.error e => Except.error e
          | Except.ok _ =>
            match env.calendarResult with
            | Except.error e => Except.error e
            | Except.ok _ => Except.ok (TryResult.selected place)

/-- The button handler: run the body once; render warning/success, or map the
exception through the two `except` clauses. -/
def run_pipeline (env : Env) : Outcome :=
  match pipelineTry env with
  | Except.ok TryResult.noEligible => Outcome.warning
  | Except.ok (TryResult.selected place) => Outcome.success (get_place_name place)
  | Except.error (Exc.http m) => Outcome.apiError ("Places API error: " ++ m)
  | Except.error (Exc.other m) => Outcome.genericError ("Something went wrong: " ++ m)

/-- The specification's eligibility predicate, written from the spec's words:
has a (non-empty) identifier, identifier not excluded, rating at least the
threshold, review count at least the threshold. -/
def spec_eligible (history_ids : Finset String) (p : Place) : Prop :=
  (∃ pid, p.id = some pid ∧ pid ≠ "" ∧ pid ∉ history_ids) ∧
    MIN_RATING ≤ p.rating.getD 0 ∧ MIN_REVIEWS ≤ p.userRatingCount.getD 0

/-- A concrete fully-populated place used to evaluate the model. -/
def placeA : Place :=
  { id := some "place-A"
    displayName := some { text := some "Alpha Diner" }
    rating := some (9 / 2)
    userRatingCount := some 350
    priceLevel := some "PRICE_LEVEL_MODERATE"
    formattedAddress := some "1 Alpha St"
    googleMapsUri := some "https://maps.example/alpha" }

/-- A concrete place whose rating field is absent. -/
def placeNoRating : Place :=
  { id := some "place-B"
    displayName := none
    rating := none
    userRatingCount := some 500
    priceLevel := none
    formattedAddress := none
    googleMapsUri := none }

/-- A concrete run whose search returns no places at all. -/
def envEmpty : Env :=
  { fetchHistoryResult := Except.ok []
    searchResult := Except.ok []
    appendResult := Except.ok ()
    calendarResult := Except.ok ()
    choiceIndex := 0 }

/-- A concrete run whose history log is empty and whose search returns one
eligible place. -/
def envSelect : Env :=
  { fetchHistoryResult := Except.ok []
    searchResult := Except.ok [placeA]
    appendResult := Except.ok ()
    calendarResult := Except.ok ()
    choiceIndex := 0 }

/-- A concrete run whose history fetch raises an HTTP error. -/
def envHttpFail : Env :=
  { fetchHistoryResult := Except.error (Exc.http "HTTP 500")
    searchResult := Except.ok []
    appendResult := Except.ok ()
    calendarResult := Except.ok ()
    choiceIndex := 0 }

end FoodPicker

namespace FoodPicker

/-- Helper: the code's boolean filter agrees with the spec predicate. -/
theorem eligibleFilter_iff (hist : Finset String) (p : Place) :
    eligibleFilter hist p = true ↔ spec_eligible hist p := by
  cases hid : p.id with
  | none =>
    simp [eligibleFilter, spec_eligible, hid]
  | some pid =>
    by_cases hpe : pid = ""
    · subst hpe
      simp [eligibleFilter, spec_eligible, hid]
    · by_cases hmem : pid ∈ hist
      · simp [eligibleFilter, spec_eligible, hid, hpe, hmem]
      · simp [eligibleFilter, spec_eligible, hid, hpe, hmem, not_lt, not_or]

/-- Helper: anything returned by `choose_place` is on the survivor list. -/
theorem choose_place_mem_eligible (places : List Place) (hist : Finset String)
    (k : ℕ) (p : Place) (h : choose_place places hist k = some p) :
    p ∈ eligiblePlaces places hist := by
  unfold choose_place at h
  by_cases he : (eligiblePlaces places hist).isEmpty
  · simp [he] at h
  · simp only [he, if_false] at h
    exact List.getElem?_mem h

/-- C1: the eligibility filter of `choose_place` returns exactly the subset of
the input places that have a (non-empty) identifier, whose identifier is not
in the exclusion set, whose rating is at least 4.2 and whose review count is
at least 200; every place missing any of these conditions is excluded. -/
theorem eligible_places_exact (places : List Place) (hist : Finset String)
    (p : Place) :
    p ∈ eligiblePlaces places hist ↔ p ∈ places ∧ spec_eligible hist p := by
  unfold eligiblePlaces
  rw [List.mem_filter, eligibleFilter_iff]

/-- C3: `get_next_monday_date` returns a Monday strictly after the input day;
a Monday input produces the day exactly 7 days later; any other weekday
produces the nearest future Monday, between 1 and 6 days later (no Monday
lies strictly between the input and the result). -/
theorem get_next_monday_date_correct (today : ℤ) :
    weekday (get_next_monday_date today) = 0 ∧
    today < get_next_monday_date today ∧
    (weekday today = 0 → get_next_monday_date today = today + 7) ∧
    (weekday today ≠ 0 →
      1 ≤ get_next_monday_date today - today ∧
        get_next_monday_date today - today ≤ 6) ∧
    (∀ d : ℤ, today < d → d < get_next_monday_date today → weekday d ≠ 0) := by
  simp only [get_next_monday_date, weekday]
  refine ⟨?_, ?_, ?_, ?_, ?_⟩
  · split_ifs with h <;> omega
  · split_ifs with h <;> omega
  · intro h0
    split_ifs with h <;> omega
  · intro h0
    split_ifs with h <;> omega
  · intro d hd1 hd2 hw
    split_ifs at hd2 with h <;> omega

/-- Witness for C3 at the concrete Monday `0` and the non-Monday `3`. -/
theorem get_next_monday_date_correct_witness :
    get_next_monday_date 0 = 0 + 7 ∧
      (1 ≤ get_next_monday_date 3 - 3 ∧ get_next_monday_date 3 - 3 ≤ 6) :=
  ⟨(get_next_monday_date_correct 0).2.2.1 (by decide),
   (get_next_monday_date_correct 3).2.2.2.1 (by decide)⟩

/-- C4: `format_history_row` produces exactly 10 fields, in the fixed order
timestamp, event date, cuisine, place name, place id, rating, review count,
price tier, address, map link. -/
theorem format_history_row_fields (ts : String) (p : Place) (c : String)
    (dIso : String) :
    (format_history_row ts p c dIso).length = 10 ∧
    (format_history_row ts p c dIso)[0]? = some ts ∧
    (format_history_row ts p c dIso)[1]? = some dIso ∧
    (format_history_row ts p c dIso)[2]? = some c ∧
    (format_history_row ts p c dIso)[3]? = some (get_place_name p) ∧
    (format_history_row ts p c dIso)[4]? = some (p.id.getD "") ∧
    (format_history_row ts p c dIso)[5]? = some (optRatStr p.rating) ∧
    (format_history_row ts p c dIso)[6]? = some (optNatStr p.userRatingCount) ∧
    (format_history_row ts p c dIso)[7]? = some (p.priceLevel.getD "") ∧
    (format_history_row ts p c dIso)[8]? = some (p.formattedAddress.getD "") ∧
    (format_history_row ts p c dIso)[9]? = some (p.googleMapsUri.getD "") := by
  refine ⟨rfl, rfl, rfl, rfl, rfl, rfl, rfl, rfl, rfl, rfl, rfl⟩

/-- C7: the calendar event built by `create_calendar_event` starts at 18:00
and ends at 20:00 local time on the event date, and its summary, location and
description are derived from the chosen place. -/
theorem create_calendar_event_correct (p : Place) (d : ℤ) :
    (create_calendar_event p d).startTime =
        { day := d, hour := 18, minute := 0, timeZone := TIMEZONE_KEY } ∧
    (create_calendar_event p d).endTime =
        { day := d, hour := 20, minute := 0, timeZone := TIMEZONE_KEY } ∧
    (create_calendar_event p d).summary = "Dinner @ " ++ get_place_name p ∧
    (create_calendar_event p d).location = p.formattedAddress.getD "" ∧
    (create_calendar_event p d).description =
      get_place_name p ++ " | Rating: " ++ ratingNA p.rating
        ++ " | Reviews: " ++ reviewsNA p.userRatingCount
        ++ " | Link: " ++ p.googleMapsUri.getD "" := by
  refine ⟨rfl, rfl, rfl, rfl, rfl⟩

/-- Helper: a place returned by `choose_place` satisfies the eligibility
predicate. -/
theorem choose_place_spec_eligible (places : List Place) (hist : Finset String)
    (k : ℕ) (p : Place) (h : choose_place places hist k = some p) :
    spec_eligible hist p := by
  have hm := choose_place_mem_eligible places hist k p h
  rw [eligiblePlaces, List.mem_filter] at hm
  exact (eligibleFilter_iff hist p).mp hm.2

/-- C2: with an empty survivor set, `choose_place` returns `none` rather than
raising, and the handler renders the warning outcome, not an error. -/
theorem empty_survivors_warning (env : Env) (rows : List (List String))
    (history_ids : Finset String) (places : List Place)
    (hh : env.fetchHistoryResult = Except.ok rows)
    (hf : fetch_history_place_ids rows = Except.ok history_ids)
    (hs : env.searchResult = Except.ok places)
    (he : eligiblePlaces places history_ids = []) :
    choose_place places history_ids env.choiceIndex = none ∧
      run_pipeline env = Outcome.warning := by
  have hc : choose_place places history_ids env.choiceIndex = none := by
    unfold choose_place
    simp [he]
  refine ⟨hc, ?_⟩
  simp [run_pipeline, pipelineTry, hh, hf, hs, hc]

/-- Witness for C2 on the concrete run with no search results. -/
theorem empty_survivors_warning_witness :
    choose_place [] ∅ 0 = none ∧ run_pipeline envEmpty = Outcome.warning :=
  empty_survivors_warning envEmpty [] ∅ [] rfl rfl rfl rfl

/-- C5: a place whose identifier is in the exclusion set built from the
history log is never the selected result of a run of the pipeline. -/
theorem history_never_reselected (env : Env) (rows : List (List String))
    (history_ids : Finset String) (p : Place) (pid : String)
    (hh : env.fetchHistoryResult = Except.ok rows)
    (hf : fetch_history_place_ids rows = Except.ok history_ids)
    (hsel : pipelineTry env = Except.ok (TryResult.selected p))
    (hid : p.id = some pid) :
    pid ∉ history_ids := by
  cases hs : env.searchResult with
  | error e => simp [pipelineTry, hh, hf, hs] at hsel
  | ok places =>
  cases hc : choose_place places history_ids env.choiceIndex with
  | none => simp [pipelineTry, hh, hf, hs, hc] at hsel
  | some q =>
  cases ha : env.appendResult with
  | error e => simp [pipelineTry, hh, hf, hs, hc, ha] at hsel
  | ok u =>
  cases hcal : env.calendarResult with
  | error e => simp [pipelineTry, hh, hf, hs, hc, ha, hcal] at hsel
  | ok v =>
  simp only [pipelineTry, hh, hf, hs, hc, ha, hcal, Except.ok.injEq,
    TryResult.selected.injEq] at hsel
  subst hsel
  obtain ⟨⟨pid2, hid2, hne2, hnm2⟩, _, _⟩ :=
    choose_place_spec_eligible places history_ids env.choiceIndex q hc
  rw [hid] at hid2
  injection hid2 with hpe
  rw [hpe]
  exact hnm2

/-- Helper: the fully-populated concrete place survives the filter on an
empty exclusion set. -/
theorem eligiblePlaces_placeA_empty : eligiblePlaces [placeA] ∅ = [placeA] := by
  norm_num [eligiblePlaces, eligibleFilter, placeA, MIN_RATING, MIN_REVIEWS]
  decide

/-- Witness for C5 on the concrete run selecting `placeA`. -/
theorem history_never_reselected_witness :
    "place-A" ∉ (∅ : Finset String) := by
  have hcp : choose_place [placeA] ∅ 0 = some placeA := by
    simp [choose_place, eligiblePlaces_placeA_empty]
  exact history_never_reselected envSelect [] ∅ placeA "place-A" rfl rfl
    (by simp [pipelineTry, envSelect, fetch_history_place_ids, hcp]) rfl

/-- C6: the pick over a non-empty survivor list is the entry at position
`k % length` for the random seed `k` (so a uniformly distributed seed picks
each position uniformly, independent of any ordering), and whatever the seed,
the returned place is a member of the survivor list. -/
theorem choose_place_uniform (places : List Place) (hist : Finset String) :
    (∀ (k : ℕ) (p : Place), choose_place places hist k = some p →
      p ∈ eligiblePlaces places hist) ∧
    (∀ k : ℕ, eligiblePlaces places hist ≠ [] →
      choose_place places hist k =
          (eligiblePlaces places hist)[k % (eligiblePlaces places hist).length]? ∧
        k % (eligiblePlaces places hist).length
          < (eligiblePlaces places hist).length) := by
  constructor
  · intro k p h
    exact choose_place_mem_eligible places hist k p h
  · intro k hne
    have hlen : 0 < (eligiblePlaces places hist).length :=
      List.length_pos.mpr hne
    refine ⟨?_, Nat.mod_lt _ hlen⟩
    have hemp : (eligiblePlaces places hist).isEmpty = false := by
      simpa [List.isEmpty_iff] using hne
    unfold choose_place
    simp [hemp]

/-- Witness for C6 on a singleton survivor list with seed 5. -/
theorem choose_place_uniform_witness :
    choose_place [placeA] ∅ 5 =
        (eligiblePlaces [placeA] ∅)[5 % (eligiblePlaces [placeA] ∅).length]? ∧
      5 % (eligiblePlaces [placeA] ∅).length
        < (eligiblePlaces [placeA] ∅).length :=
  (choose_place_uniform [placeA] ∅).2 5
    (by simp [eligiblePlaces_placeA_empty])

/-- C8: every failing run surfaces as exactly one of the two error outcomes:
an HTTP error from the places API with its own message, or any other
exception with the generic message. -/
theorem failure_outcomes (env : Env) (e : Exc)
    (h : pipelineTry env = Except.error e) :
    (∃ m, e = Exc.http m ∧
        run_pipeline env = Outcome.apiError ("Places API error: " ++ m)) ∨
    (∃ m, e = Exc.other m ∧
        run_pipeline env = Outcome.genericError ("Something went wrong: " ++ m)) := by
  cases e with
  | http m => exact Or.inl ⟨m, rfl, by simp [run_pipeline, h]⟩
  | other m => exact Or.inr ⟨m, rfl, by simp [run_pipeline, h]⟩

/-- Witness for C8 on the concrete run whose history fetch raises. -/
theorem failure_outcomes_witness :
    (∃ m, Exc.http "HTTP 500" = Exc.http m ∧
        run_pipeline envHttpFail = Outcome.apiError ("Places API error: " ++ m)) ∨
    (∃ m, Exc.http "HTTP 500" = Exc.other m ∧
        run_pipeline envHttpFail = Outcome.genericError ("Something went wrong: " ++ m)) :=
  failure_outcomes envHttpFail (Exc.http "HTTP 500") rfl

/-- C9: a place whose rating field or review-count field is absent defaults to
0 there and is never returned by `choose_place`, for every exclusion set. -/
theorem missing_fields_never_selected (places : List Place)
    (hist : Finset String) (k : ℕ) (p : Place)
    (h : p.rating = none ∨ p.userRatingCount = none) :
    choose_place places hist k ≠ some p := by
  intro hc
  obtain ⟨_, hr, hv⟩ := choose_place_spec_eligible places hist k p hc
  cases h with
  | inl h0 =>
    rw [h0] at hr
    simp only [Option.getD_none] at hr
    exact absurd hr (by norm_num [MIN_RATING])
  | inr h0 =>
    rw [h0] at hv
    simp only [Option.getD_none] at hv
    exact absurd hv (by norm_num [MIN_REVIEWS])

/-- Witness for C9 on the concrete place with no rating field. -/
theorem missing_fields_never_selected_witness :
    choose_place [placeNoRating] ∅ 0 ≠ some placeNoRating :=
  missing_fields_never_selected [placeNoRating] ∅ 0 placeNoRating (Or.inl rfl)

/-- Helper: the unfolding of `fetch_history_place_ids` on a non-empty read. -/
theorem fetch_history_place_ids_cons (header : List String)
    (dataRows : List (List String)) :
    fetch_history_place_ids (header :: dataRows) =
      if dataRows ≠ [] ∧ maxRowWidth dataRows ≠ header.length then
        Except.error (Exc.other
          (toString header.length ++ " columns passed, passed data had "
            ++ toString (maxRowWidth dataRows) ++ " columns"))
      else if "Google Place ID" ∉ header then Except.ok ∅
      else if 2 ≤ header.count "Google Place ID" then
        Except.ok {"Google Place ID"}
      else
        Except.ok
          ((dataRows.filterMap
            (fun r => r[header.indexOf "Google Place ID"]?)).toFinset) := rfl

/-- Counterexample to C10 as stated.  First input: the two-column header with
a single one-cell data row (the sheets API trims trailing empty cells) makes
`pd.DataFrame` raise, so the exclusion set is not well-defined there — the
function errors instead of returning a set.  Second input: with the
`"Google Place ID"` header duplicated, the result is the singleton of the
column label itself, and the actual data value `"idA"` of that column is not
in it, contradicting the claimed characterization as exactly the column's
values. -/
theorem fetch_history_place_ids_refuted :
    fetch_history_place_ids [["Timestamp", "Google Place ID"], ["t1"]] =
        Except.error (Exc.other "2 columns passed, passed data had 1 columns") ∧
      fetch_history_place_ids
          [["Google Place ID", "Google Place ID"], ["idA", "idB"]] =
        Except.ok {"Google Place ID"} ∧
      "idA" ∉ ({"Google Place ID"} : Finset String) := by
  refine ⟨rfl, rfl, ?_⟩
  decide

/-- C10 amended: `fetch_history_place_ids` returns the empty set on an empty
read; when data rows exist whose maximum width differs from the header width,
`pd.DataFrame` raises (an `AssertionError`, surfaced downstream as the
generic error) instead of returning a set; otherwise a header lacking the
`"Google Place ID"` column gives the empty set, a header with exactly one
such column gives exactly the set of present (non-null) values of that
column over the data rows (header row excluded), and a duplicated
`"Google Place ID"` header gives the singleton of the column label. -/
theorem fetch_history_place_ids_amended :
    fetch_history_place_ids [] = Except.ok ∅ ∧
    (∀ (header : List String) (dataRows : List (List String)),
      (dataRows = [] ∨ maxRowWidth dataRows = header.length) →
      "Google Place ID" ∉ header →
        fetch_history_place_ids (header :: dataRows) = Except.ok ∅) ∧
    (∀ (header : List String) (dataRows : List (List String)) (pid : String),
      (dataRows = [] ∨ maxRowWidth dataRows = header.length) →
      header.count "Google Place ID" = 1 →
        ∃ s, fetch_history_place_ids (header :: dataRows) = Except.ok s ∧
          (pid ∈ s ↔ ∃ r ∈ dataRows,
            r[header.indexOf "Google Place ID"]? = some pid)) ∧
    (∀ (header : List String) (dataRows : List (List String)),
      (dataRows = [] ∨ maxRowWidth dataRows = header.length) →
      2 ≤ header.count "Google Place ID" →
        fetch_history_place_ids (header :: dataRows) =
          Except.ok {"Google Place ID"}) ∧
    (∀ (header : List String) (dataRows : List (List String)),
      dataRows ≠ [] → maxRowWidth dataRows ≠ header.length →
        fetch_history_place_ids (header :: dataRows) =
          Except.error (Exc.other
            (toString header.length ++ " columns passed, passed data had "
              ++ toString (maxRowWidth dataRows) ++ " columns"))) := by
  have hwidth : ∀ (header : List String) (dataRows : List (List String)),
      (dataRows = [] ∨ maxRowWidth dataRows = header.length) →
      ¬(dataRows ≠ [] ∧ maxRowWidth dataRows ≠ header.length) := by
    intro header dataRows hw
    rcases hw with rfl | hw
    · simp
    · simp [hw]
  refine ⟨rfl, ?_, ?_, ?_, ?_⟩
  · intro header dataRows hw hnm
    rw [fetch_history_place_ids_cons, if_neg (hwidth header dataRows hw),
      if_pos hnm]
  · intro header dataRows pid hw hcount
    have hmem : "Google Place ID" ∈ header := by
      by_contra hnm
      rw [List.count_eq_zero_of_not_mem hnm] at hcount
      exact absurd hcount (by norm_num)
    refine ⟨(dataRows.filterMap
      (fun r => r[header.indexOf "Google Place ID"]?)).toFinset, ?_, ?_⟩
    · rw [fetch_history_place_ids_cons, if_neg (hwidth header dataRows hw),
        if_neg (by simpa using hmem), if_neg (by rw [hcount]; norm_num)]
    · simp [List.mem_toFinset, List.mem_filterMap]
  · intro header dataRows hw hcount
    have hmem : "Google Place ID" ∈ header := by
      by_contra hnm
      rw [List.count_eq_zero_of_not_mem hnm] at hcount
      exact absurd hcount (by norm_num)
    rw [fetch_history_place_ids_cons, if_neg (hwidth header dataRows hw),
      if_neg (by simpa using hmem), if_pos hcount]
  · intro header dataRows h1 h2
    rw [fetch_history_place_ids_cons, if_pos ⟨h1, h2⟩]

/-- Witness for the amended C10: the single-column value case on a well-formed
log, and the raising case on a log whose only data row is too short. -/
theorem fetch_history_place_ids_amended_witness :
    (∃ s, fetch_history_place_ids [["Google Place ID"], ["idA"]]
        = Except.ok s ∧
      ("idA" ∈ s ↔ ∃ r ∈ [["idA"]],
        r[(["Google Place ID"] : List String).indexOf "Google Place ID"]?
          = some "idA")) ∧
    fetch_history_place_ids [["Timestamp", "Google Place ID"], ["t1"]] =
      Except.error (Exc.other
        (toString (["Timestamp", "Google Place ID"] : List String).length
          ++ " columns passed, passed data had "
          ++ toString (maxRowWidth [["t1"]]) ++ " columns")) :=
  ⟨fetch_history_place_ids_amended.2.2.1 ["Google Place ID"] [["idA"]] "idA"
      (Or.inr (by decide)) (by decide),
   fetch_history_place_ids_amended.2.2.2.2 ["Timestamp", "Google Place ID"]
      [["t1"]] (by decide) (by decide)⟩

end FoodPicker
